import Mathlib

/-!
Verification of the SkyConnectSL hybrid AI routing core
(`src/backend/services/ai/hybrid/`).

This file gives a shallow embedding of the pipeline
classify → authorize → route → {data engine | retrieval engine} → format,
translated from the Python source, and proves the specified properties
about it.

Modelling conventions:
* Python `float` scores, confidences and thresholds are modelled as exact
  rationals (`ℚ`); every property proved here is a threshold comparison,
  insensitive to float rounding.
* External collaborators (the Firestore store, the ChromaDB similarity
  search, the two generation backends, the lexical pattern scan of the
  intent classifier) are modelled as oracle functions supplied in an
  environment record; a raised exception is an `Except.error` carrying
  `str(e)`.
* Wall-clock latency fields and the logging calls are telemetry that no
  routed value depends on; they are omitted.
* Heterogeneous Python dicts are modelled as structures holding exactly
  the keys the pipeline reads.
-/

namespace SkyConnect

/-- Intent enumeration from `intent_classifier.py` (`class Intent`). -/
inductive Intent where
  | RECOMMENDATION
  | SAVED_ITEMS
  | ANALYTICS
  | REVENUE
  | MODERATION
  | POLICY
  | NAVIGATION
  | TROUBLESHOOTING
  | UNKNOWN
deriving DecidableEq, Repr

/-- The `Intent.value` strings from the Python enum. -/
def Intent.value : Intent → String
  | .RECOMMENDATION => "recommendation_query"
  | .SAVED_ITEMS => "saved_items_query"
  | .ANALYTICS => "analytics_query"
  | .REVENUE => "revenue_query"
  | .MODERATION => "moderation_query"
  | .POLICY => "policy_query"
  | .NAVIGATION => "navigation_query"
  | .TROUBLESHOOTING => "troubleshooting_query"
  | .UNKNOWN => "unknown"

/-- Role enumeration from `role_validator.py` (`class UserRole`). -/
inductive UserRole where
  | TRAVELER
  | PARTNER
  | ADMIN
deriving DecidableEq, Repr

/-- The `UserRole.value` strings from the Python enum. -/
def UserRole.value : UserRole → String
  | .TRAVELER => "traveler"
  | .PARTNER => "partner"
  | .ADMIN => "admin"

/-- Python `str.strip()` as an executable whitespace trim (the queries in
this development use ASCII whitespace only). -/
def isSpaceChar (c : Char) : Bool :=
  c = ' ' || c = '\t' || c = '\n' || c = '\r'

/-- Executable model of `query.strip()`. -/
def pyStrip (s : String) : String :=
  ⟨((s.data.dropWhile isSpaceChar).reverse.dropWhile isSpaceChar).reverse⟩

/-- Python truthiness of an `Optional[str]`: `None` and `""` are falsy. -/
def strOptTruthy : Option String → Bool
  | none => false
  | some s => !(s = "")

/-- Python `a or b` for `a : Optional[str]`, `b : str`
(used as `partner_id or user_id` in `HybridAISystem.query`). -/
def orUserId (partner_id : Option String) (user_id : String) : String :=
  match partner_id with
  | none => user_id
  | some s => if s = "" then user_id else s

-- ━━━━━━━━━━━━━━━━━━━━━━━━━━━━━━━━━━━━━━━━━━━━━━━━━━━━━━━━━━━
-- Role Validator (`role_validator.py`)
-- ━━━━━━━━━━━━━━━━━━━━━━━━━━━━━━━━━━━━━━━━━━━━━━━━━━━━━━━━━━━

/-- Static table `RoleValidator.INTENT_ROLE_PERMISSIONS`: the intent → allowed-roles
dict. Modelled as a partial map to mirror the `intent not in ...` lookup. -/
def INTENT_ROLE_PERMISSIONS : Intent → Option (List UserRole)
  | .RECOMMENDATION => some [.TRAVELER, .PARTNER, .ADMIN]
  | .SAVED_ITEMS => some [.TRAVELER]
  | .ANALYTICS => some [.PARTNER, .ADMIN]
  | .REVENUE => some [.PARTNER, .ADMIN]
  | .MODERATION => some [.ADMIN]
  | .POLICY => some [.TRAVELER, .PARTNER, .ADMIN]
  | .NAVIGATION => some [.TRAVELER, .PARTNER, .ADMIN]
  | .TROUBLESHOOTING => some [.TRAVELER, .PARTNER, .ADMIN]
  | .UNKNOWN => some [.TRAVELER, .PARTNER, .ADMIN]

/-- Set `RoleValidator.SCOPE_VALIDATION_REQUIRED`: intents needing resource
ownership validation. -/
def SCOPE_VALIDATION_REQUIRED : List Intent :=
  [.ANALYTICS, .REVENUE, .SAVED_ITEMS]

/-- Result record `RoleValidationResult` from `role_validator.py`. -/
structure RoleValidationResult where
  allowed : Bool
  role : UserRole
  intent : Intent
  reason : String
  requires_scope_validation : Bool
deriving DecidableEq, Repr

/-- The scope-violation denial reason string of the validator (with the
apostrophe written as an escape). -/
def crossResourceReason : String :=
  "Access denied: Cannot access other users\x27 resources"

/-- The role-not-permitted denial reason built in `RoleValidator.validate`
step 2 (an f-string over role, intent and the allow-list entry). -/
def roleNotPermittedReason (role : UserRole) (intent : Intent)
    (allowed_roles : List UserRole) : String :=
  "Role \x27" ++ (role.value ++ ("\x27 not permitted for " ++ (intent.value ++
    (". Required: " ++ String.intercalate ", " (allowed_roles.map UserRole.value)))))

/-- The condition `resource_owner_id and resource_owner_id != user_id`
from `RoleValidator.validate` step 3 (Python truthiness on the left). -/
def scopeViolation (user_id : String) (resource_owner_id : Option String) : Bool :=
  match resource_owner_id with
  | none => false
  | some s => (!(s = "")) && (!(s = user_id))

/-- Operation `RoleValidator.validate` (role_validator.py lines 135-215): two-tier
check — static allow-list, then ownership scope for the scope-checked
intents (ADMIN bypasses the scope check only). -/
def validate (user_id : String) (role : UserRole) (intent : Intent)
    (resource_owner_id : Option String) : RoleValidationResult :=
  match INTENT_ROLE_PERMISSIONS intent with
  | none =>
      { allowed := false, role := role, intent := intent,
        reason := "Unknown intent type", requires_scope_validation := false }
  | some allowed_roles =>
      if role ∈ allowed_roles then
        let requires_scope := intent ∈ SCOPE_VALIDATION_REQUIRED
        if requires_scope ∧ role ≠ UserRole.ADMIN then
          if scopeViolation user_id resource_owner_id then
            { allowed := false, role := role, intent := intent,
              reason := crossResourceReason, requires_scope_validation := false }
          else
            { allowed := true, role := role, intent := intent,
              reason := "Access granted",
              requires_scope_validation := requires_scope }
        else
          { allowed := true, role := role, intent := intent,
            reason := "Access granted",
            requires_scope_validation := requires_scope }
      else
        { allowed := false, role := role, intent := intent,
          reason := roleNotPermittedReason role intent allowed_roles,
          requires_scope_validation := false }

-- ━━━━━━━━━━━━━━━━━━━━━━━━━━━━━━━━━━━━━━━━━━━━━━━━━━━━━━━━━━━
-- Intent Classifier (`intent_classifier.py`)
-- ━━━━━━━━━━━━━━━━━━━━━━━━━━━━━━━━━━━━━━━━━━━━━━━━━━━━━━━━━━━

/-- Metadata record `IntentMetadata` from `intent_classifier.py`. -/
structure IntentMetadata where
  intent : Intent
  confidence : ℚ
  requires_db : Bool
  requires_rag : Bool
  method : String
deriving DecidableEq, Repr

/-- Static routing table `IntentClassifier.INTENT_ROUTING`:
intent → (requires_db, requires_rag). -/
def INTENT_ROUTING : Intent → Bool × Bool
  | .RECOMMENDATION => (true, false)
  | .SAVED_ITEMS => (true, false)
  | .ANALYTICS => (true, false)
  | .REVENUE => (true, false)
  | .MODERATION => (true, false)
  | .POLICY => (false, true)
  | .NAVIGATION => (false, true)
  | .TROUBLESHOOTING => (false, true)
  | .UNKNOWN => (false, false)

/-- The keys of `IntentClassifier.INTENT_EXAMPLES`, in dict order; the
embedding fallback iterates these when picking the best similarity. -/
def INTENT_EXAMPLE_INTENTS : List Intent :=
  [.RECOMMENDATION, .SAVED_ITEMS, .ANALYTICS, .REVENUE, .MODERATION,
   .POLICY, .NAVIGATION, .TROUBLESHOOTING]

/-- The classifier default `confidence_threshold = 0.6`. -/
def confidence_threshold : ℚ := mkRat 3 5

/-- Environment of one `IntentClassifier.classify` call.  The regex pattern
scan and the embedding backend are external effects for the claims proved
here, so both are oracles: `keyword_match` is the first intent whose pattern
group matches the (trimmed) query, if any; `sims i` is the maximum cosine
similarity between the query embedding and the example embeddings of
intent `i`;
`embeddings_available` models the `EMBEDDINGS_AVAILABLE` import guard. -/
structure ClassifierEnv where
  keyword_match : Option Intent
  embeddings_available : Bool
  sims : Intent → ℚ

/-- Helper `IntentClassifier._create_unknown_intent`. -/
def create_unknown_intent : IntentMetadata :=
  { intent := .UNKNOWN, confidence := 0, requires_db := false,
    requires_rag := false, method := "none" }

/-- Fast path `IntentClassifier._classify_by_keywords`: a pattern hit yields
confidence 1.0 and method "keyword"; no hit yields `none`. -/
def classify_by_keywords (env : ClassifierEnv) : Option IntentMetadata :=
  env.keyword_match.map fun intent =>
    { intent := intent, confidence := 1,
      requires_db := (INTENT_ROUTING intent).1,
      requires_rag := (INTENT_ROUTING intent).2,
      method := "keyword" }

/-- The best-intent scan of `IntentClassifier._classify_by_embedding`:
start from `(UNKNOWN, 0.0)` and keep any strictly greater similarity. -/
def bestSimilarity (sims : Intent → ℚ) : Intent × ℚ :=
  INTENT_EXAMPLE_INTENTS.foldl
    (fun b i => if sims i > b.2 then (i, sims i) else b) (Intent.UNKNOWN, 0)

/-- Fallback path `IntentClassifier._classify_by_embedding`; degrades to
UNKNOWN when the embedding backend is unavailable. -/
def classify_by_embedding (env : ClassifierEnv) : IntentMetadata :=
  if env.embeddings_available = false then create_unknown_intent
  else
    let best := bestSimilarity env.sims
    { intent := best.1, confidence := best.2,
      requires_db := (INTENT_ROUTING best.1).1,
      requires_rag := (INTENT_ROUTING best.1).2,
      method := "embedding" }

/-- Operation `IntentClassifier.classify`: empty query → UNKNOWN; keyword
fast path; embedding fallback; low confidence forced to UNKNOWN. -/
def classify (env : ClassifierEnv) (query : String) : IntentMetadata :=
  if pyStrip query = "" then create_unknown_intent
  else
    match classify_by_keywords env with
    | some result => result
    | none =>
        let embedding_result := classify_by_embedding env
        if embedding_result.confidence < confidence_threshold then
          create_unknown_intent
        else embedding_result

-- ━━━━━━━━━━━━━━━━━━━━━━━━━━━━━━━━━━━━━━━━━━━━━━━━━━━━━━━━━━━
-- Generation Facade (`llm_provider_fallback.py`)
-- ━━━━━━━━━━━━━━━━━━━━━━━━━━━━━━━━━━━━━━━━━━━━━━━━━━━━━━━━━━━

/-- Provider enumeration `LLMProvider` from `llm_provider_fallback.py`. -/
inductive LLMProvider where
  | GROQ
  | GEMINI
  | NONE
deriving DecidableEq, Repr

/-- Cumulative counters `HybridLLMProvider.stats`. -/
structure LLMStats where
  groq_success : Nat
  groq_failure : Nat
  gemini_success : Nat
  gemini_fallback : Nat
  total_failures : Nat
deriving DecidableEq, Repr

/-- Response record `LLMResponse` (latency and token telemetry omitted). -/
structure LLMResponse where
  text : String
  provider : LLMProvider
  fallback_used : Bool
deriving DecidableEq, Repr

/-- Environment of one `HybridLLMProvider.generate_full` call:
whether each client initialized, and the outcome of the single attempt
against each backend (`_try_groq` / `_try_gemini` return `Optional[str]`
and catch their own exceptions, so `none` is any failure). -/
structure LLMEnv where
  groq_client : Bool
  gemini_client : Bool
  try_groq : Option String
  try_gemini : Option String

/-- Operation `HybridLLMProvider.generate_full` (lines 238-306): try Groq
once, fall back to Gemini once, update the counters, return `none` when
both backends fail.  Note `if groq_result:` is Python truthiness, so an
empty string also counts as a failure. -/
def generate_full (env : LLMEnv) (stats : LLMStats) :
    Option LLMResponse × LLMStats :=
  let afterGroq : Option LLMResponse × LLMStats :=
    if env.groq_client then
      if strOptTruthy env.try_groq then
        (some { text := env.try_groq.getD "", provider := LLMProvider.GROQ,
                fallback_used := false },
         { stats with groq_success := stats.groq_success + 1 })
      else (none, { stats with groq_failure := stats.groq_failure + 1 })
    else (none, stats)
  match afterGroq with
  | (some r, s) => (some r, s)
  | (none, s) =>
      if env.gemini_client then
        if strOptTruthy env.try_gemini then
          (some { text := env.try_gemini.getD "", provider := LLMProvider.GEMINI,
                  fallback_used := true },
           { s with gemini_success := s.gemini_success + 1,
                    gemini_fallback := s.gemini_fallback + 1 })
        else (none, { s with total_failures := s.total_failures + 1 })
      else (none, { s with total_failures := s.total_failures + 1 })

/-- Wrapper `HybridLLMProvider.generate`: text only, `none` on failure. -/
def generate (env : LLMEnv) (stats : LLMStats) : Option String × LLMStats :=
  let r := generate_full env stats
  (r.1.map LLMResponse.text, r.2)

-- ━━━━━━━━━━━━━━━━━━━━━━━━━━━━━━━━━━━━━━━━━━━━━━━━━━━━━━━━━━━
-- Retrieval Engine (`rag_engine.py`)
-- ━━━━━━━━━━━━━━━━━━━━━━━━━━━━━━━━━━━━━━━━━━━━━━━━━━━━━━━━━━━

/-- The two ChromaDB collections of the RAG engine. -/
inductive RagCollection where
  | policies
  | help_docs
deriving DecidableEq, Repr

/-- Constant `RAGEngine.MAX_CHUNKS`. -/
def MAX_CHUNKS : Nat := 5

/-- One formatted result of `RAGEngine._semantic_search` (text, the
"source"/"section" metadata keys if present, and the similarity score
`1 - distance`).  The field for the "section" key is `section_name`,
since `section` is reserved in Lean. -/
structure SearchResult where
  text : String
  source : Option String
  section_name : Option String
  score : ℚ
deriving DecidableEq, Repr

/-- A citation entry assembled by `RAGEngine._assemble_context`
(display rounding of the score to 3 decimals omitted). -/
structure Citation where
  id : Nat
  source : String
  section_name : String
  score : ℚ
deriving DecidableEq, Repr

/-- The dictionary returned by `RAGEngine.query`.  The refusal dict carries
an extra `"refusal": True` key; this is the `refusal` flag, `false` on the
success path where the key is absent. -/
structure RagResult where
  success : Bool
  response : String
  citations : List Citation
  chunk_count : Nat
  scores : List ℚ
  context : Option String
  refusal : Bool
deriving DecidableEq, Repr

/-- Environment of a `RAGEngine` instance: the ChromaDB similarity search
(already formatted, `[]` on a search exception, as `_semantic_search`
catches internally), the generation provider used by
`_synthesize_with_llm` (`Except.error` models a raised exception, `ok`
the returned `Optional[str]`), and the instance `similarity_threshold`
(0.75 by default and in the deployed singleton). -/
structure RagEnv where
  search : RagCollection → String → Nat → List SearchResult
  llm : String → Except String (Option String)
  similarity_threshold : ℚ

/-- Helper `RAGEngine._select_collection`. -/
def select_collection : Intent → RagCollection
  | .POLICY => .policies
  | .NAVIGATION => .help_docs
  | .TROUBLESHOOTING => .help_docs
  | _ => .help_docs

/-- Helper `RAGEngine._refusal_response`. -/
def refusal_response (message : String) : RagResult :=
  { success := false, response := message, citations := [], chunk_count := 0,
    scores := [], context := none, refusal := true }

/-- The containment refusal message for analytics/revenue/saved-items. -/
def ragContainmentRefusal : String :=
  "I cannot provide analytics or revenue data. Please use the analytics dashboard or ask an admin."

/-- The insufficient-information refusal message. -/
def ragInsufficientRefusal : String :=
  "I don\x27t have enough information to answer that question accurately. Please contact support or check the help documentation."

/-- Helper `RAGEngine._filter_by_similarity`: keep `score >= threshold`. -/
def filter_by_similarity (results : List SearchResult) (threshold : ℚ) :
    List SearchResult :=
  results.filter fun r => threshold ≤ r.score

/-- Helper `RAGEngine._assemble_context`: context block with `[Source N]`
markers plus the citation list. -/
def assemble_context (chunks : List SearchResult) : String × List Citation :=
  let parts := chunks.enum.map fun p =>
    "[Source " ++ toString (p.1 + 1) ++ "]\n" ++ p.2.text ++ "\n"
  let citations := chunks.enum.map fun p =>
    ({ id := p.1 + 1, source := p.2.source.getD "Unknown",
       section_name := p.2.section_name.getD "", score := p.2.score } : Citation)
  (String.intercalate "\n---\n" parts, citations)

/-- The synthesis prompt of `RAGEngine._synthesize_with_llm`. -/
def rag_synthesis_prompt (query context : String) (intent : Intent) : String :=
  "You are a helpful assistant explaining SkyConnect policies and features.\n\nCRITICAL RULES:\n1. Answer ONLY from the provided context\n2. DO NOT add information not in the context\n3. DO NOT make up policies or procedures\n4. Cite sources using [Source N] markers\n5. If context is insufficient, say \"I don\x27t have enough information\"\n6. Be clear, concise, and helpful\n\nIntent: " ++ intent.value ++ "\nUser Query: " ++ query ++ "\n\nContext:\n" ++ context ++ "\n\nProvide a clear, helpful answer based ONLY on the context above."

/-- The apology returned when the generation call raises. -/
def synthLLMErrorApology : String :=
  "I apologize, but I encountered an error generating the response. Please try again."

/-- The apology returned when the generation call yields no text
(`response or ...` — `None` or the empty string). -/
def synthNoTextApology : String :=
  "I apologize, but I couldn\x27t generate a response. Please try again."

/-- Helper `RAGEngine._synthesize_with_llm`. -/
def synthesize_with_llm (env : RagEnv) (query context : String)
    (intent : Intent) : String :=
  match env.llm (rag_synthesis_prompt query context intent) with
  | .error _ => synthLLMErrorApology
  | .ok none => synthNoTextApology
  | .ok (some t) => if t = "" then synthNoTextApology else t

/-- Operation `RAGEngine.query` (rag_engine.py lines 130-198): containment
check, semantic search, threshold filtering, refusal on no relevant
context, context assembly and LLM synthesis. -/
def RAGEngine.query (env : RagEnv) (query : String) (intent : Intent)
    (role : UserRole) (max_chunks : Nat) : RagResult :=
  if intent ∈ [Intent.ANALYTICS, Intent.REVENUE, Intent.SAVED_ITEMS] then
    refusal_response ragContainmentRefusal
  else
    let collection := select_collection intent
    let search_results := env.search collection query max_chunks
    let relevant_chunks := filter_by_similarity search_results env.similarity_threshold
    if relevant_chunks.isEmpty then
      refusal_response ragInsufficientRefusal
    else
      let assembled := assemble_context relevant_chunks
      let response := synthesize_with_llm env query assembled.1 intent
      { success := true, response := response, citations := assembled.2,
        chunk_count := relevant_chunks.length,
        scores := relevant_chunks.map SearchResult.score,
        context := some assembled.1, refusal := false }

/-- Failure of one generation call as C9 describes it: the call raises, or
returns no text (None or empty). -/
def genFailed : Except String (Option String) → Bool
  | .error _ => true
  | .ok none => true
  | .ok (some t) => t = ""

-- ━━━━━━━━━━━━━━━━━━━━━━━━━━━━━━━━━━━━━━━━━━━━━━━━━━━━━━━━━━━
-- Structured Data Engine (`data_engine.py`)
-- ━━━━━━━━━━━━━━━━━━━━━━━━━━━━━━━━━━━━━━━━━━━━━━━━━━━━━━━━━━━

/-- Enumeration `TimeRange` from `data_engine.py`.  Its resolution to a
concrete date pair reads the wall clock and only feeds the stubbed
aggregation helpers, so the dates themselves are omitted. -/
inductive TimeRange where
  | LAST_7_DAYS
  | LAST_30_DAYS
  | LAST_90_DAYS
  | THIS_MONTH
  | LAST_MONTH
  | CUSTOM
deriving DecidableEq, Repr

/-- The envelope dict returned by `DeterministicDataEngine` operations.
Only the keys the router reads are modelled: `success`, `count` (0 when the
key is absent, matching `get("count", 0)`), `message`, and the `error`
marker set by `_error_response`.  The `data` payload is opaque to routing
and formatting and is omitted. -/
structure DataEnvelope where
  success : Bool
  count : Nat
  message : String
  error : Bool
deriving DecidableEq, Repr

/-- Helper `DeterministicDataEngine._error_response`. -/
def error_response (message : String) : DataEnvelope :=
  { success := false, count := 0, message := message, error := true }

/-- The Firestore service behind the engine.  In the source only
`get_saved_items` reaches it; every other query helper
(`_query_listings`, `_query_analytics`, `_query_bookings`, the counters)
is a placeholder returning empty results.  `Except.error e` models the
store raising an exception with `str(e) = e`. -/
structure StoreEnv where
  get_saved_items : String → Nat → Except String (List String)

/-- Operation `DeterministicDataEngine.get_saved_items`: the inner
`except` returns `_error_response(str(e))` — the bare exception text. -/
def DataEngine.get_saved_items (store : StoreEnv) (user_id : String)
    (limit : Nat) : DataEnvelope :=
  match store.get_saved_items user_id limit with
  | .ok saved_items =>
      { success := true, count := saved_items.length,
        message := "Found " ++ toString saved_items.length ++ " saved items",
        error := false }
  | .error e => error_response e

/-- Operation `get_personal_recommendations`: `_query_listings` is a stub
returning `[]`. -/
def get_personal_recommendations : DataEnvelope :=
  let listings : List String := []
  { success := true, count := listings.length,
    message := "Found " ++ toString listings.length ++ " recommendations",
    error := false }

/-- Operation `get_partner_analytics`: `_query_analytics` is a stub of
zeros; `count` is `total_events = 0`. -/
def get_partner_analytics : DataEnvelope :=
  { success := true, count := 0,
    message := "Analytics retrieved successfully", error := false }

/-- Operation `get_partner_revenue`: `_query_bookings` is a stub returning
`[]`. -/
def get_partner_revenue : DataEnvelope :=
  let bookings : List String := []
  { success := true, count := bookings.length,
    message := "Revenue calculated for " ++ toString bookings.length ++ " bookings",
    error := false }

/-- Operation `get_system_analytics`: the returned dict has no `count`
key, so `get("count", 0)` yields 0 downstream. -/
def get_system_analytics : DataEnvelope :=
  { success := true, count := 0,
    message := "System analytics retrieved successfully", error := false }

/-- Operation `get_system_revenue` (no `count` key either). -/
def get_system_revenue : DataEnvelope :=
  { success := true, count := 0,
    message := "System revenue retrieved successfully", error := false }

/-- Operation `get_pending_moderation`: both moderation queues are stubs
returning `[]`. -/
def get_pending_moderation : DataEnvelope :=
  { success := true, count := 0,
    message := "Moderation queue retrieved successfully", error := false }

/-- Operation `DeterministicDataEngine.execute` (data_engine.py lines
102-160): intent dispatch with role gating.  All inner handlers catch
their own exceptions, so the outer `except` (whose message would be
`"Database error: " + str(e)`) is unreachable, as in the source. -/
def execute (store : StoreEnv) (intent : Intent) (user_id : String)
    (partner_id : Option String) (role : Option UserRole)
    (time_range : TimeRange) (limit : Nat) : DataEnvelope :=
  match intent with
  | .RECOMMENDATION => get_personal_recommendations
  | .SAVED_ITEMS => DataEngine.get_saved_items store user_id limit
  | .ANALYTICS =>
      if role = some UserRole.ADMIN then get_system_analytics
      else if role = some UserRole.PARTNER ∧ strOptTruthy partner_id then
        get_partner_analytics
      else error_response "Analytics not available for this role"
  | .REVENUE =>
      if role = some UserRole.ADMIN then get_system_revenue
      else if role = some UserRole.PARTNER ∧ strOptTruthy partner_id then
        get_partner_revenue
      else error_response "Revenue data not available for this role"
  | .MODERATION =>
      if role = some UserRole.ADMIN then get_pending_moderation
      else error_response "Moderation access denied"
  | _ => error_response ("Intent " ++ intent.value ++ " not handled by data engine")

-- ━━━━━━━━━━━━━━━━━━━━━━━━━━━━━━━━━━━━━━━━━━━━━━━━━━━━━━━━━━━
-- Query Router (`query_router.py`)
-- ━━━━━━━━━━━━━━━━━━━━━━━━━━━━━━━━━━━━━━━━━━━━━━━━━━━━━━━━━━━

/-- Enumeration `DataSource` from `query_router.py`
(values "database", "vector_db", "hybrid", "none"). -/
inductive DataSource where
  | DATABASE
  | VECTOR_DB
  | HYBRID
  | NONE
deriving DecidableEq, Repr

/-- The `DataSource.value` strings. -/
def DataSource.value : DataSource → String
  | .DATABASE => "database"
  | .VECTOR_DB => "vector_db"
  | .HYBRID => "hybrid"
  | .NONE => "none"

/-- The `raw_data` payload attached to a response: the database envelope,
the RAG context, or both (for hybrid routing). -/
inductive RawData where
  | dbData : DataEnvelope → RawData
  | ragContext : Option String → RawData
  | hybridData : DataEnvelope → Option String → RawData
deriving DecidableEq, Repr

/-- Response record `QueryResponse` from `query_router.py`.  The metadata
dict (latency, confidence, classification method, chunk counts) is
observability-only and is omitted; `response` is the `response_text` the
caller reads. -/
structure QueryResponse where
  intent : Intent
  role : UserRole
  data_source : DataSource
  response : String
  raw_data : Option RawData
deriving DecidableEq, Repr

/-- Environment of a `QueryRouter` instance: the data engine store, the
RAG engine environment, the formatting provider
(`HybridLLMProvider.generate`, which catches all backend errors and
returns `Optional[str]`), and the `enable_llm_formatting` flag. -/
structure RouterEnv where
  store : StoreEnv
  rag : RagEnv
  llm_generate : String → Option String
  enable_llm_formatting : Bool

/-- Result of one `QueryRouter.route` call, instrumented with how many
times each engine was invoked during the call. -/
structure RouteResult where
  response : QueryResponse
  db_calls : Nat
  rag_calls : Nat
deriving Repr

/-- Helper `QueryRouter._determine_data_source`. -/
def determine_data_source (intent_meta : IntentMetadata) : DataSource :=
  if intent_meta.requires_db ∧ intent_meta.requires_rag = false then .DATABASE
  else if intent_meta.requires_rag ∧ intent_meta.requires_db = false then .VECTOR_DB
  else if intent_meta.requires_db ∧ intent_meta.requires_rag then .HYBRID
  else .NONE

/-- Helper `QueryRouter._format_simple` (query_router.py lines 538-558).
On a failed envelope it returns `data.get("message", "No data available")`;
the `message` key is always present, so this is the envelope message even
when that message is empty.  The REVENUE branch formats
`data.get("total", 0)` and no envelope carries a top-level `total` key, so
it always prints `$0.00`. -/
def format_simple (data : DataEnvelope) (intent : Intent) : String :=
  if data.success = false then data.message
  else if intent = Intent.ANALYTICS then
    "Analytics: " ++ toString data.count ++ " items found"
  else if intent = Intent.SAVED_ITEMS then
    "You have " ++ toString data.count ++ " saved items"
  else if intent = Intent.REVENUE then "Revenue: $0.00"
  else data.message

/-- Rendering of an envelope into the formatting prompt (Python
interpolates the dict with `str`). -/
def DataEnvelope.render (d : DataEnvelope) : String :=
  "\x7b\x27success\x27: " ++ (if d.success then "True" else "False") ++
    ", \x27count\x27: " ++ toString d.count ++
    ", \x27message\x27: \x27" ++ d.message ++ "\x27\x7d"

/-- The formatting prompt of `QueryRouter._format_with_llm`. -/
def llm_format_prompt (raw_data : DataEnvelope) (intent : Intent)
    (query : String) : String :=
  "You are a helpful assistant formatting structured data for users.\n\nCRITICAL RULES:\n1. Use ONLY the data provided in the context\n2. DO NOT invent, calculate, or modify numbers\n3. DO NOT add information not in the data\n4. Present the data in a friendly, conversational tone\n5. Keep responses concise and clear\n\nIntent: " ++ intent.value ++ "\nUser Query: " ++ query ++ "\n\nData to format:\n" ++ raw_data.render ++ "\n\nFormat this data in a natural, helpful response."

/-- Helper `QueryRouter._format_with_llm`: the generated text, or the
simple fallback when generation yields nothing (`response or ...`). -/
def format_with_llm (env : RouterEnv) (raw_data : DataEnvelope)
    (intent : Intent) (query : String) : String :=
  match env.llm_generate (llm_format_prompt raw_data intent query) with
  | none => format_simple raw_data intent
  | some t => if t = "" then format_simple raw_data intent else t

/-- Helper `QueryRouter._route_to_database` (query_router.py lines
286-331): execute the engine (time_range and limit left at their
defaults), then optionally LLM-format successful envelopes. -/
def route_to_database (env : RouterEnv) (query : String) (intent : Intent)
    (user_id : String) (partner_id : Option String) (role : UserRole) :
    RouteResult :=
  let raw_data := execute env.store intent user_id partner_id (some role)
    TimeRange.LAST_30_DAYS 100
  let formatted :=
    if env.enable_llm_formatting ∧ raw_data.success then
      format_with_llm env raw_data intent query
    else format_simple raw_data intent
  { response := { intent := intent, role := role, data_source := .DATABASE,
                  response := formatted, raw_data := some (.dbData raw_data) },
    db_calls := 1, rag_calls := 0 }

/-- Helper `QueryRouter._route_to_rag` (lines 333-369). -/
def route_to_rag (env : RouterEnv) (query : String) (intent : Intent)
    (role : UserRole) : RouteResult :=
  let rag_result := RAGEngine.query env.rag query intent role MAX_CHUNKS
  { response := { intent := intent, role := role, data_source := .VECTOR_DB,
                  response := rag_result.response,
                  raw_data := some (.ragContext rag_result.context) },
    db_calls := 0, rag_calls := 1 }

/-- The hybrid synthesis prompt of `QueryRouter._synthesize_hybrid`. -/
def hybrid_synthesis_prompt (query : String) (db_data : DataEnvelope)
    (rag_response : String) (intent : Intent) : String :=
  "You are a travel assistant helping users discover experiences.\n\nUse the database data (user preferences, past bookings) and knowledge base context \nto create a personalized response.\n\nRULES:\n1. Prioritize database data for user-specific information\n2. Use knowledge base for general travel insights\n3. DO NOT invent data not provided\n4. Be conversational and helpful\n\nIntent: " ++ intent.value ++ "\nQuery: " ++ query ++ "\n\nDatabase Context:\n" ++ db_data.render ++ "\n\nKnowledge Base Context:\n" ++ rag_response ++ "\n\nProvide a helpful, personalized response."

/-- Helper `QueryRouter._synthesize_hybrid`. -/
def synthesize_hybrid (env : RouterEnv) (query : String)
    (db_data : DataEnvelope) (rag_data : RagResult) (intent : Intent) : String :=
  match env.llm_generate
      (hybrid_synthesis_prompt query db_data rag_data.response intent) with
  | none => format_simple db_data intent
  | some t => if t = "" then format_simple db_data intent else t

/-- Helper `QueryRouter._route_hybrid` (lines 371-429). -/
def route_hybrid (env : RouterEnv) (query : String) (intent : Intent)
    (user_id : String) (partner_id : Option String) (role : UserRole) :
    RouteResult :=
  let db_data := execute env.store intent user_id partner_id (some role)
    TimeRange.LAST_30_DAYS 100
  let rag_data := RAGEngine.query env.rag query intent role MAX_CHUNKS
  let formatted :=
    if env.enable_llm_formatting then
      synthesize_hybrid env query db_data rag_data intent
    else format_simple db_data intent
  { response := { intent := intent, role := role, data_source := .HYBRID,
                  response := formatted,
                  raw_data := some (.hybridData db_data rag_data.context) },
    db_calls := 1, rag_calls := 1 }

/-- The fixed clarification text of `QueryRouter._handle_unknown_intent`. -/
def unknownIntentText : String :=
  "I\x27m not sure I understand your question. Could you please rephrase? I can help with:\n• Finding hotels and experiences\n• Viewing your saved items\n• Checking analytics (for partners)\n• Explaining policies and guidelines\n• Answering how-to questions"

/-- Helper `QueryRouter._handle_unknown_intent`. -/
def handle_unknown_intent : QueryResponse :=
  { intent := .UNKNOWN, role := .TRAVELER, data_source := .NONE,
    response := unknownIntentText, raw_data := none }

/-- Operation `QueryRouter.route` (query_router.py lines 171-262).  Note
that the body never reads `role_validation.allowed`: the source selects a
data source from the intent metadata alone and dispatches, then strips
`raw_data` when it was not requested.  (The catch-all error branch is for
exceptions of the engines; every engine call here returns its errors as
data, as the Python engines catch internally.) -/
def route (env : RouterEnv) (query : String) (intent_meta : IntentMetadata)
    (role_validation : RoleValidationResult) (user_id : String)
    (partner_id : Option String) (include_raw_data : Bool) : RouteResult :=
  let data_source := determine_data_source intent_meta
  let r :=
    if data_source = DataSource.DATABASE then
      route_to_database env query intent_meta.intent user_id partner_id
        role_validation.role
    else if data_source = DataSource.VECTOR_DB then
      route_to_rag env query intent_meta.intent role_validation.role
    else if data_source = DataSource.HYBRID then
      route_hybrid env query intent_meta.intent user_id partner_id
        role_validation.role
    else { response := handle_unknown_intent, db_calls := 0, rag_calls := 0 }
  if include_raw_data then r
  else { r with response := { r.response with raw_data := none } }

-- ━━━━━━━━━━━━━━━━━━━━━━━━━━━━━━━━━━━━━━━━━━━━━━━━━━━━━━━━━━━
-- System orchestrator (`hybrid/__init__.py`, `HybridAISystem`)
-- ━━━━━━━━━━━━━━━━━━━━━━━━━━━━━━━━━━━━━━━━━━━━━━━━━━━━━━━━━━━

/-- Environment of the whole system: the classifier oracles for this query
plus the router environment. -/
structure SystemEnv where
  classifier : ClassifierEnv
  router : RouterEnv

/-- The denial text of `HybridAISystem._create_access_denied_response`. -/
def access_denied_response_text (rv : RoleValidationResult) : String :=
  "Access denied: " ++ rv.reason ++ "\n\nYour current role (" ++ rv.role.value ++
    ") does not have permission to perform this action."

/-- Helper `HybridAISystem._create_access_denied_response`. -/
def create_access_denied_response (rv : RoleValidationResult) : QueryResponse :=
  { intent := rv.intent, role := rv.role, data_source := .NONE,
    response := access_denied_response_text rv, raw_data := none }

/-- One full pipeline run, instrumented with the validation result the
orchestrator computed and the engine invocation counts. -/
structure QueryRun where
  response : QueryResponse
  validation : RoleValidationResult
  db_calls : Nat
  rag_calls : Nat
deriving Repr

/-- Operation `HybridAISystem.query` (hybrid/__init__.py lines 207-271):
classify, validate with `resource_owner_id = partner_id or user_id`,
short-circuit to the denial response when not allowed, otherwise route.
(The boundary conversion `UserRole(role)` is out of scope — the role
arrives already validated, per the boundary contract in the spec.) -/
def HybridAISystem.query (env : SystemEnv) (query_text : String)
    (user_id : String) (role : UserRole) (partner_id : Option String)
    (include_raw_data : Bool) : QueryRun :=
  let intent_meta := classify env.classifier query_text
  let role_validation := validate user_id role intent_meta.intent
    (some (orUserId partner_id user_id))
  if role_validation.allowed = false then
    { response := create_access_denied_response role_validation,
      validation := role_validation, db_calls := 0, rag_calls := 0 }
  else
    let r := route env.router query_text intent_meta role_validation user_id
      partner_id include_raw_data
    { response := r.response, validation := role_validation,
      db_calls := r.db_calls, rag_calls := r.rag_calls }

-- ━━━━━━━━━━━━━━━━━━━━━━━━━━━━━━━━━━━━━━━━━━━━━━━━━━━━━━━━━━━
-- Concrete environments used by witnesses and counterexamples
-- ━━━━━━━━━━━━━━━━━━━━━━━━━━━━━━━━━━━━━━━━━━━━━━━━━━━━━━━━━━━

/-- A store that answers every saved-items query with an empty list. -/
def quietStore : StoreEnv := ⟨fun _ _ => .ok []⟩

/-- A store whose backend raises with a backend-identifying message. -/
def crashingStore : StoreEnv :=
  ⟨fun _ _ => .error "google.api_core.exceptions.PermissionDenied: 403 Missing or insufficient permissions"⟩

/-- A store whose backend raises an exception with an empty message
(`str(e) = ""`, e.g. `raise Exception()`). -/
def emptyErrStore : StoreEnv := ⟨fun _ _ => .error ""⟩

/-- A RAG environment with an empty index and a silent provider, at the
deployed threshold. -/
def quietRag : RagEnv := ⟨fun _ _ _ => [], fun _ => Except.ok none, mkRat 3 4⟩

/-- A RAG environment with one highly similar chunk whose generation
backend raises on every prompt. -/
def failingGenRag : RagEnv :=
  ⟨fun _ _ _ => [{ text := "Refunds are issued within 14 days.",
                   source := some "Refund Policy", section_name := none,
                   score := mkRat 9 10 }],
   fun _ => Except.error "rate limit", mkRat 3 4⟩

/-- Router over the quiet store/RAG with formatting enabled. -/
def quietRouterEnv : RouterEnv := ⟨quietStore, quietRag, fun _ => none, true⟩

/-- Router whose store raises the empty-message exception. -/
def emptyErrRouterEnv : RouterEnv := ⟨emptyErrStore, quietRag, fun _ => none, true⟩

/-- A denied validation result: TRAVELER asking for ANALYTICS. -/
def deniedValidation : RoleValidationResult :=
  validate "user123" UserRole.TRAVELER Intent.ANALYTICS (some "user123")

/-- The intent metadata a keyword match produces for ANALYTICS. -/
def analyticsMeta : IntentMetadata :=
  { intent := .ANALYTICS, confidence := 1, requires_db := true,
    requires_rag := false, method := "keyword" }

/-- System environment: ANALYTICS keyword match, quiet engines. -/
def analyticsSysEnv : SystemEnv :=
  ⟨⟨some Intent.ANALYTICS, true, fun _ => 0⟩, quietRouterEnv⟩

/-- System environment: SAVED_ITEMS keyword match over the store whose
exception message is empty. -/
def savedItemsEmptyErrSysEnv : SystemEnv :=
  ⟨⟨some Intent.SAVED_ITEMS, true, fun _ => 0⟩, emptyErrRouterEnv⟩

-- Basic facts about the reason strings

theorem data_append (a b : String) : (a ++ b).data = a.data ++ b.data := rfl

theorem roleNotPermittedReason_ne_cross (role : UserRole) (intent : Intent)
    (rs : List UserRole) :
    roleNotPermittedReason role intent rs ≠ crossResourceReason := by
  intro h
  have h2 : (roleNotPermittedReason role intent rs).data.head? =
      crossResourceReason.data.head? := by rw [h]
  have h3 : (roleNotPermittedReason role intent rs).data.head? = some 'R' := rfl
  have h4 : crossResourceReason.data.head? = some 'A' := rfl
  rw [h3, h4] at h2
  simp at h2

/-- If `validate` returns the cross-resource reason, the scope-violation
condition held on its arguments. -/
theorem validate_cross_reason_iff (user_id : String) (role : UserRole)
    (intent : Intent) (ro : Option String)
    (h : (validate user_id role intent ro).reason = crossResourceReason) :
    intent ∈ SCOPE_VALIDATION_REQUIRED ∧ role ≠ UserRole.ADMIN ∧
      scopeViolation user_id ro = true := by
  unfold validate at h
  cases hperm : INTENT_ROLE_PERMISSIONS intent with
  | none =>
      rw [hperm] at h
      simp [crossResourceReason] at h
  | some rs =>
      rw [hperm] at h
      by_cases hmem : role ∈ rs
      · simp only [hmem, if_true] at h
        by_cases hsc : intent ∈ SCOPE_VALIDATION_REQUIRED ∧ role ≠ UserRole.ADMIN
        · simp only [hsc, if_true] at h
          by_cases hv : scopeViolation user_id ro = true
          · exact ⟨hsc.1, hsc.2, hv⟩
          · simp only [hv, if_false] at h
            simp [crossResourceReason] at h
        · simp only [hsc, if_false] at h
          simp [crossResourceReason] at h
      · simp only [hmem, if_false] at h
        exact absurd h (roleNotPermittedReason_ne_cross role intent rs)

-- ━━━━━━━━━━━━━━━━━━━━━━━━━━━━━━━━━━━━━━━━━━━━━━━━━━━━━━━━━━━
-- Claims C2 and C6 (role validator)
-- ━━━━━━━━━━━━━━━━━━━━━━━━━━━━━━━━━━━━━━━━━━━━━━━━━━━━━━━━━━━

/-- C6: for every (role, intent) pair such that the role is not in the
static allow-list entry for that intent, or the intent has no allow-list
entry at all, `validate` returns `allowed = false` (fail-secure default). -/
theorem C6_fail_secure_allow_list (user_id : String) (role : UserRole)
    (intent : Intent) (ro : Option String)
    (h : INTENT_ROLE_PERMISSIONS intent = none ∨
      ∃ rs, INTENT_ROLE_PERMISSIONS intent = some rs ∧ role ∉ rs) :
    (validate user_id role intent ro).allowed = false := by
  unfold validate
  rcases h with h | ⟨rs, hrs, hnotin⟩
  · rw [h]
  · rw [hrs]
    simp [hnotin]

/-- C6 witness: TRAVELER is not in the ANALYTICS allow-list, and the
validator denies. -/
theorem C6_fail_secure_allow_list_witness :
    (validate "user123" UserRole.TRAVELER Intent.ANALYTICS none).allowed = false :=
  C6_fail_secure_allow_list "user123" UserRole.TRAVELER Intent.ANALYTICS none
    (Or.inr ⟨[.PARTNER, .ADMIN], by decide, by decide⟩)

/-- C2: for every scope-checked intent for which PARTNER is role-permitted,
and distinct identifiers A ≠ B (identifiers are non-empty strings),
`validate(A, PARTNER, intent, B)` is denied with the distinct cross-resource
reason, while the identical call with ADMIN is allowed. -/
theorem C2_partner_scope_denied_admin_allowed (intent : Intent) (A B : String)
    (hscope : intent ∈ SCOPE_VALIDATION_REQUIRED)
    (hperm : ∃ rs, INTENT_ROLE_PERMISSIONS intent = some rs ∧ UserRole.PARTNER ∈ rs)
    (hne : B ≠ A) (hB : B ≠ "") :
    (validate A UserRole.PARTNER intent (some B)).allowed = false ∧
    (validate A UserRole.PARTNER intent (some B)).reason = crossResourceReason ∧
    crossResourceReason ≠
      roleNotPermittedReason UserRole.PARTNER intent
        ((INTENT_ROLE_PERMISSIONS intent).getD []) ∧
    (validate A UserRole.ADMIN intent (some B)).allowed = true := by
  obtain ⟨rs, hrs, hmem⟩ := hperm
  have hadmin : UserRole.ADMIN ∈ rs := by
    fin_cases hscope
    · have he : rs = [UserRole.PARTNER, UserRole.ADMIN] := by
        have := hrs
        simp only [INTENT_ROLE_PERMISSIONS, Option.some.injEq] at this
        exact this.symm
      subst he; decide
    · have he : rs = [UserRole.PARTNER, UserRole.ADMIN] := by
        have := hrs
        simp only [INTENT_ROLE_PERMISSIONS, Option.some.injEq] at this
        exact this.symm
      subst he; decide
    · have he : rs = [UserRole.TRAVELER] := by
        have := hrs
        simp only [INTENT_ROLE_PERMISSIONS, Option.some.injEq] at this
        exact this.symm
      subst he
      exact absurd hmem (by decide)
  have hviol : scopeViolation A (some B) = true := by
    simp [scopeViolation, hB, hne]
  constructor
  · unfold validate
    rw [hrs]
    simp [hmem, hscope, hviol]
  constructor
  · unfold validate
    rw [hrs]
    simp [hmem, hscope, hviol]
  constructor
  · exact fun h => roleNotPermittedReason_ne_cross _ _ _ h.symm
  · unfold validate
    rw [hrs]
    simp [hadmin]

/-- C2 witness: ANALYTICS, A = "partnerA", B = "partnerB". -/
theorem C2_partner_scope_denied_admin_allowed_witness :
    (validate "partnerA" UserRole.PARTNER Intent.ANALYTICS (some "partnerB")).allowed
      = false ∧
    (validate "partnerA" UserRole.PARTNER Intent.ANALYTICS (some "partnerB")).reason
      = crossResourceReason ∧
    crossResourceReason ≠
      roleNotPermittedReason UserRole.PARTNER Intent.ANALYTICS
        ((INTENT_ROLE_PERMISSIONS Intent.ANALYTICS).getD []) ∧
    (validate "partnerA" UserRole.ADMIN Intent.ANALYTICS (some "partnerB")).allowed
      = true :=
  C2_partner_scope_denied_admin_allowed Intent.ANALYTICS "partnerA" "partnerB"
    (by decide) ⟨[.PARTNER, .ADMIN], by decide, by decide⟩
    (by decide) (by decide)

-- ━━━━━━━━━━━━━━━━━━━━━━━━━━━━━━━━━━━━━━━━━━━━━━━━━━━━━━━━━━━
-- Further helper lemmas
-- ━━━━━━━━━━━━━━━━━━━━━━━━━━━━━━━━━━━━━━━━━━━━━━━━━━━━━━━━━━━

theorem foldl_best_lt (sims : Intent → ℚ) (c : ℚ) :
    ∀ (l : List Intent) (b : Intent × ℚ), (∀ i ∈ l, sims i < c) → b.2 < c →
    (l.foldl (fun b i => if sims i > b.2 then (i, sims i) else b) b).2 < c := by
  intro l
  induction l with
  | nil => intro b _ hb; exact hb
  | cons x xs ih =>
      intro b hl hb
      simp only [List.foldl_cons]
      apply ih
      · intro i hi
        exact hl i (List.mem_cons_of_mem _ hi)
      · by_cases hx : sims x > b.2
        · rw [if_pos hx]
          exact hl x (List.mem_cons_self x xs)
        · rw [if_neg hx]
          exact hb

theorem query_validation_eq (env : SystemEnv) (q u : String) (role : UserRole)
    (pid : Option String) (inc : Bool) :
    (HybridAISystem.query env q u role pid inc).validation =
      validate u role (classify env.classifier q).intent (some (orUserId pid u)) := by
  unfold HybridAISystem.query
  by_cases h : (validate u role (classify env.classifier q).intent
      (some (orUserId pid u))).allowed = false
  · simp [h]
  · simp [h]

theorem validate_self_not_cross (u : String) (role : UserRole) (i : Intent) :
    (validate u role i (some u)).reason ≠ crossResourceReason := by
  intro h
  obtain ⟨-, -, hv⟩ := validate_cross_reason_iff u role i (some u) h
  simp [scopeViolation] at hv

-- ━━━━━━━━━━━━━━━━━━━━━━━━━━━━━━━━━━━━━━━━━━━━━━━━━━━━━━━━━━━
-- Claim C1 (router denial short-circuit)
-- ━━━━━━━━━━━━━━━━━━━━━━━━━━━━━━━━━━━━━━━━━━━━━━━━━━━━━━━━━━━

/-- C1 counterexample: `QueryRouter.route` itself does not inspect
`authorization.allowed`.  Called with a denied authorization (TRAVELER
asking ANALYTICS) and database-routed intent metadata, it invokes the
Structured Data Engine once and returns `data_source = DATABASE`, not the
denial response with `data_source = "none"` the claim requires. -/
theorem C1_counterexample :
    deniedValidation.allowed = false ∧
    (route quietRouterEnv "How many views did I get?" analyticsMeta
      deniedValidation "user123" none false).db_calls = 1 ∧
    (route quietRouterEnv "How many views did I get?" analyticsMeta
      deniedValidation "user123" none false).response.data_source =
      DataSource.DATABASE ∧
    DataSource.DATABASE ≠ DataSource.NONE := by
  refine ⟨rfl, rfl, rfl, ?_⟩
  decide

/-- C1 (amended): the denial short-circuit lives one level up, in
`HybridAISystem.query` — whenever the role validator denies, the pipeline
returns the access-denied response with `data_source = "none"` without
invoking the router or either engine. -/
theorem C1_system_short_circuits_denials (env : SystemEnv)
    (query_text user_id : String) (role : UserRole)
    (partner_id : Option String) (include_raw_data : Bool)
    (h : (validate user_id role (classify env.classifier query_text).intent
      (some (orUserId partner_id user_id))).allowed = false) :
    (HybridAISystem.query env query_text user_id role partner_id
      include_raw_data).response.data_source = DataSource.NONE ∧
    (HybridAISystem.query env query_text user_id role partner_id
      include_raw_data).db_calls = 0 ∧
    (HybridAISystem.query env query_text user_id role partner_id
      include_raw_data).rag_calls = 0 ∧
    (HybridAISystem.query env query_text user_id role partner_id
      include_raw_data).response =
      create_access_denied_response
        (HybridAISystem.query env query_text user_id role partner_id
          include_raw_data).validation := by
  unfold HybridAISystem.query
  simp [h, create_access_denied_response]

/-- C1 witness: a TRAVELER analytics query is short-circuited. -/
theorem C1_system_short_circuits_denials_witness :
    (HybridAISystem.query analyticsSysEnv "How many views did I get?"
      "user123" UserRole.TRAVELER none false).response.data_source =
      DataSource.NONE ∧
    (HybridAISystem.query analyticsSysEnv "How many views did I get?"
      "user123" UserRole.TRAVELER none false).db_calls = 0 ∧
    (HybridAISystem.query analyticsSysEnv "How many views did I get?"
      "user123" UserRole.TRAVELER none false).rag_calls = 0 ∧
    (HybridAISystem.query analyticsSysEnv "How many views did I get?"
      "user123" UserRole.TRAVELER none false).response =
      create_access_denied_response
        (HybridAISystem.query analyticsSysEnv "How many views did I get?"
          "user123" UserRole.TRAVELER none false).validation :=
  C1_system_short_circuits_denials analyticsSysEnv "How many views did I get?"
    "user123" UserRole.TRAVELER none false (by decide)

-- ━━━━━━━━━━━━━━━━━━━━━━━━━━━━━━━━━━━━━━━━━━━━━━━━━━━━━━━━━━━
-- Claim C3 (partner_id or user_id defaulting)
-- ━━━━━━━━━━━━━━━━━━━━━━━━━━━━━━━━━━━━━━━━━━━━━━━━━━━━━━━━━━━

/-- C3: when `partner_id` is None or empty, `HybridAISystem.query` invokes
the validator with `resource_owner_id = user_id` (the `partner_id or
user_id` expression), so the validation of the run is never the scope-violation
denial; conversely a cross-resource denial is reachable only from a
non-empty `partner_id` different from `user_id`. -/
theorem C3_empty_partner_id_never_scope_denied (env : SystemEnv) (q u : String)
    (role : UserRole) (pid : Option String) (inc : Bool) :
    ((pid = none ∨ pid = some "") →
      orUserId pid u = u ∧
      (HybridAISystem.query env q u role pid inc).validation =
        validate u role (classify env.classifier q).intent (some u) ∧
      (HybridAISystem.query env q u role pid inc).validation.reason ≠
        crossResourceReason) ∧
    ((HybridAISystem.query env q u role pid inc).validation.reason =
        crossResourceReason →
      ∃ s, pid = some s ∧ s ≠ "" ∧ s ≠ u) := by
  constructor
  · intro hp
    have ho : orUserId pid u = u := by
      rcases hp with h | h <;> simp [h, orUserId]
    refine ⟨ho, ?_, ?_⟩
    · rw [query_validation_eq, ho]
    · rw [query_validation_eq, ho]
      exact validate_self_not_cross u role _
  · intro hc
    rw [query_validation_eq] at hc
    obtain ⟨-, -, hv⟩ := validate_cross_reason_iff _ _ _ _ hc
    simp only [scopeViolation, Bool.and_eq_true, Bool.not_eq_true',
      decide_eq_false_iff_not] at hv
    obtain ⟨hne_empty, hne_u⟩ := hv
    cases pid with
    | none =>
        exact absurd (by simp [orUserId]) hne_u
    | some s =>
        by_cases hs : s = ""
        · exact absurd (by simp [orUserId, hs]) hne_u
        · refine ⟨s, rfl, hs, ?_⟩
          have : orUserId (some s) u = s := by simp [orUserId, hs]
          rw [this] at hne_u
          exact hne_u

/-- C3 witness: with `partner_id = None`, the validator sees the id of the
caller itself and the validation is not the cross-resource denial. -/
theorem C3_empty_partner_id_never_scope_denied_witness :
    orUserId none "user123" = "user123" ∧
    (HybridAISystem.query analyticsSysEnv "How many views did I get?"
      "user123" UserRole.PARTNER none false).validation =
      validate "user123" UserRole.PARTNER
        (classify analyticsSysEnv.classifier "How many views did I get?").intent
        (some "user123") ∧
    (HybridAISystem.query analyticsSysEnv "How many views did I get?"
      "user123" UserRole.PARTNER none false).validation.reason ≠
      crossResourceReason :=
  (C3_empty_partner_id_never_scope_denied analyticsSysEnv
    "How many views did I get?" "user123" UserRole.PARTNER none false).1
    (Or.inl rfl)

-- ━━━━━━━━━━━━━━━━━━━━━━━━━━━━━━━━━━━━━━━━━━━━━━━━━━━━━━━━━━━
-- Claim C4 (storage failure surfacing)
-- ━━━━━━━━━━━━━━━━━━━━━━━━━━━━━━━━━━━━━━━━━━━━━━━━━━━━━━━━━━━

/-- C4 divergence: when the store raises, `execute` does return a
`success = false` envelope instead of propagating, but the envelope
message is the raw exception text (`_error_response(str(e))` in
`get_saved_items`), and `_format_simple` surfaces that text verbatim as
the caller-visible response — the backend identity crosses the boundary,
contradicting the claim (and the own documentation of the engine, "Never
expose raw Firestore errors to frontend"). -/
theorem C4_storage_error_text_leaks :
    (execute crashingStore Intent.SAVED_ITEMS "user123" none
      (some UserRole.TRAVELER) TimeRange.LAST_30_DAYS 100).success = false ∧
    (execute crashingStore Intent.SAVED_ITEMS "user123" none
      (some UserRole.TRAVELER) TimeRange.LAST_30_DAYS 100).message =
      "google.api_core.exceptions.PermissionDenied: 403 Missing or insufficient permissions" ∧
    format_simple
      (execute crashingStore Intent.SAVED_ITEMS "user123" none
        (some UserRole.TRAVELER) TimeRange.LAST_30_DAYS 100)
      Intent.SAVED_ITEMS =
      "google.api_core.exceptions.PermissionDenied: 403 Missing or insufficient permissions" :=
  ⟨rfl, rfl, rfl⟩

-- ━━━━━━━━━━━━━━━━━━━━━━━━━━━━━━━━━━━━━━━━━━━━━━━━━━━━━━━━━━━
-- Claim C5 (retrieval refusal semantics)
-- ━━━━━━━━━━━━━━━━━━━━━━━━━━━━━━━━━━━━━━━━━━━━━━━━━━━━━━━━━━━

/-- C5: at the deployed similarity threshold 0.75, the Retrieval Engine
returns `success = false` both for the contained intents (ANALYTICS,
REVENUE, SAVED_ITEMS) and whenever every candidate chunk scores below
0.75; it never returns `success = true` in those cases. -/
theorem C5_retrieval_refusals (env : RagEnv) (query : String) (intent : Intent)
    (role : UserRole)
    (hth : env.similarity_threshold = mkRat 3 4)
    (h : intent ∈ [Intent.ANALYTICS, Intent.REVENUE, Intent.SAVED_ITEMS] ∨
      ∀ r ∈ env.search (select_collection intent) query MAX_CHUNKS,
        r.score < mkRat 3 4) :
    (RAGEngine.query env query intent role MAX_CHUNKS).success = false := by
  unfold RAGEngine.query
  by_cases hc : intent ∈ [Intent.ANALYTICS, Intent.REVENUE, Intent.SAVED_ITEMS]
  · simp [hc, refusal_response]
  · rcases h with h | h
    · exact absurd h hc
    · have hfilter : filter_by_similarity
          (env.search (select_collection intent) query MAX_CHUNKS)
          env.similarity_threshold = [] := by
        unfold filter_by_similarity
        rw [hth, List.filter_eq_nil_iff]
        intro a ha
        simp only [decide_eq_true_eq]
        exact not_le.mpr (h a ha)
      simp [hc, hfilter, refusal_response]

/-- C5 witness: a POLICY query over an empty index is refused. -/
theorem C5_retrieval_refusals_witness :
    (RAGEngine.query quietRag "What is the refund policy?" Intent.POLICY
      UserRole.TRAVELER MAX_CHUNKS).success = false :=
  C5_retrieval_refusals quietRag "What is the refund policy?" Intent.POLICY
    UserRole.TRAVELER rfl
    (Or.inr (fun r hr => absurd hr (by simp [quietRag])))

-- ━━━━━━━━━━━━━━━━━━━━━━━━━━━━━━━━━━━━━━━━━━━━━━━━━━━━━━━━━━━
-- Claim C7 (low-confidence classification)
-- ━━━━━━━━━━━━━━━━━━━━━━━━━━━━━━━━━━━━━━━━━━━━━━━━━━━━━━━━━━━

/-- C7: when no lexical pattern matches and the best embedding similarity
of every intent is below the 0.6 threshold, `classify` returns UNKNOWN
regardless of which intent scored best. -/
theorem C7_low_confidence_forces_unknown (env : ClassifierEnv) (query : String)
    (hkw : env.keyword_match = none)
    (hsim : ∀ i, env.sims i < confidence_threshold) :
    (classify env query).intent = Intent.UNKNOWN := by
  have hk : classify_by_keywords env = none := by
    unfold classify_by_keywords
    rw [hkw]
    rfl
  have hconf : (classify_by_embedding env).confidence < confidence_threshold := by
    unfold classify_by_embedding
    by_cases he : env.embeddings_available = false
    · simp only [he, if_pos]
      show (0 : ℚ) < confidence_threshold
      decide
    · simp only [he, if_neg]
      show (bestSimilarity env.sims).2 < confidence_threshold
      unfold bestSimilarity
      apply foldl_best_lt env.sims confidence_threshold INTENT_EXAMPLE_INTENTS
        (Intent.UNKNOWN, 0) (fun i _ => hsim i)
      show (0 : ℚ) < confidence_threshold
      decide
  unfold classify
  rw [hk]
  by_cases ht : pyStrip query = ""
  · simp [ht, create_unknown_intent]
  · simp [ht, hconf, create_unknown_intent]

/-- C7 witness: a greeting with similarity 0.5 everywhere is UNKNOWN. -/
theorem C7_low_confidence_forces_unknown_witness :
    (classify ⟨none, true, fun _ => mkRat 1 2⟩ "Hello, how are you?").intent =
      Intent.UNKNOWN :=
  C7_low_confidence_forces_unknown ⟨none, true, fun _ => mkRat 1 2⟩
    "Hello, how are you?" rfl
    (fun _ => by show mkRat 1 2 < confidence_threshold; decide)

-- ━━━━━━━━━━━━━━━━━━━━━━━━━━━━━━━━━━━━━━━━━━━━━━━━━━━━━━━━━━━
-- Claim C8 (generation facade fallback and counters)
-- ━━━━━━━━━━━━━━━━━━━━━━━━━━━━━━━━━━━━━━━━━━━━━━━━━━━━━━━━━━━

/-- C8: with both backends configured, if the primary attempt fails and
the secondary succeeds the outcome has `fallback_used = true`; if both
fail the result is absent and exactly the primary-failure and
total-failure counters increment, each exactly once. -/
theorem C8_fallback_and_failure_counters (env : LLMEnv) (stats : LLMStats)
    (hg : env.groq_client = true) (hm : env.gemini_client = true) :
    (strOptTruthy env.try_groq = false → strOptTruthy env.try_gemini = true →
      ∃ r, (generate_full env stats).1 = some r ∧ r.fallback_used = true) ∧
    (strOptTruthy env.try_groq = false → strOptTruthy env.try_gemini = false →
      (generate_full env stats).1 = none ∧
      (generate_full env stats).2 =
        { stats with groq_failure := stats.groq_failure + 1,
                     total_failures := stats.total_failures + 1 }) := by
  constructor
  · intro h1 h2
    refine ⟨{ text := env.try_gemini.getD "", provider := LLMProvider.GEMINI,
              fallback_used := true }, ?_, rfl⟩
    unfold generate_full
    simp [hg, hm, h1, h2]
  · intro h1 h2
    unfold generate_full
    simp [hg, hm, h1, h2]

/-- C8 witness: both halves exercised on concrete environments starting
from zeroed counters. -/
theorem C8_fallback_and_failure_counters_witness :
    (∃ r, (generate_full ⟨true, true, none, some "recovered"⟩
      ⟨0, 0, 0, 0, 0⟩).1 = some r ∧ r.fallback_used = true) ∧
    ((generate_full ⟨true, true, none, none⟩ ⟨0, 0, 0, 0, 0⟩).1 = none ∧
      (generate_full ⟨true, true, none, none⟩ ⟨0, 0, 0, 0, 0⟩).2 =
        ⟨0, 1, 0, 0, 1⟩) := by
  constructor
  · exact (C8_fallback_and_failure_counters ⟨true, true, none, some "recovered"⟩
      ⟨0, 0, 0, 0, 0⟩ rfl rfl).1 rfl rfl
  · have h := (C8_fallback_and_failure_counters ⟨true, true, none, none⟩
      ⟨0, 0, 0, 0, 0⟩ rfl rfl).2 rfl rfl
    exact ⟨h.1, h.2⟩

-- ━━━━━━━━━━━━━━━━━━━━━━━━━━━━━━━━━━━━━━━━━━━━━━━━━━━━━━━━━━━
-- Claim C9 (generation failure inside retrieval)
-- ━━━━━━━━━━━━━━━━━━━━━━━━━━━━━━━━━━━━━━━━━━━━━━━━━━━━━━━━━━━

/-- C9 counterexample: when the generation call raises after chunks
survived the threshold, `RAGEngine.query` does not fall back to a refusal
envelope — it returns `success = true` (no refusal marker) with a fixed
apology as the response text. -/
theorem C9_counterexample :
    (RAGEngine.query failingGenRag "What is the refund policy?" Intent.POLICY
      UserRole.TRAVELER MAX_CHUNKS).success = true ∧
    (RAGEngine.query failingGenRag "What is the refund policy?" Intent.POLICY
      UserRole.TRAVELER MAX_CHUNKS).refusal = false ∧
    (RAGEngine.query failingGenRag "What is the refund policy?" Intent.POLICY
      UserRole.TRAVELER MAX_CHUNKS).response = synthLLMErrorApology := by
  refine ⟨?_, ?_, ?_⟩ <;> decide

/-- C9 (amended): if the generation call fails (raises or returns no
text), the engine substitutes a fixed apology string for the answer —
never the raw assembled chunk context — and keeps exactly one citation per
surviving chunk; but it does not refuse: `success` stays `true`. -/
theorem C9_gen_failure_apology_with_citations (env : RagEnv) (query : String)
    (intent : Intent) (role : UserRole) (max_chunks : Nat)
    (hfail : ∀ p, genFailed (env.llm p) = true) :
    (RAGEngine.query env query intent role max_chunks).citations.length =
      (RAGEngine.query env query intent role max_chunks).chunk_count ∧
    ((RAGEngine.query env query intent role max_chunks).success = true →
      (RAGEngine.query env query intent role max_chunks).response =
        synthLLMErrorApology ∨
      (RAGEngine.query env query intent role max_chunks).response =
        synthNoTextApology) := by
  unfold RAGEngine.query
  by_cases hc : intent ∈ [Intent.ANALYTICS, Intent.REVENUE, Intent.SAVED_ITEMS]
  · simp [hc, refusal_response]
  · simp only [hc, if_neg, if_false]
    by_cases he : (filter_by_similarity
        (env.search (select_collection intent) query max_chunks)
        env.similarity_threshold).isEmpty
    · simp [he, refusal_response]
    · simp only [he, if_neg, Bool.false_eq_true, if_false]
      constructor
      · unfold assemble_context
        simp [List.enum_length]
      · intro _
        unfold synthesize_with_llm
        have hf := hfail (rag_synthesis_prompt query
          (assemble_context (filter_by_similarity
            (env.search (select_collection intent) query max_chunks)
            env.similarity_threshold)).1 intent)
        cases hllm : env.llm (rag_synthesis_prompt query
            (assemble_context (filter_by_similarity
              (env.search (select_collection intent) query max_chunks)
              env.similarity_threshold)).1 intent) with
        | error e => simp [hllm]
        | ok o =>
            cases o with
            | none => simp [hllm]
            | some t =>
                rw [hllm] at hf
                have ht : t = "" := by
                  simpa [genFailed] using hf
                simp [hllm, ht]

/-- C9 witness: the amended behaviour at the raising backend. -/
theorem C9_gen_failure_apology_with_citations_witness :
    (RAGEngine.query failingGenRag "How do refunds work?" Intent.POLICY
      UserRole.TRAVELER MAX_CHUNKS).citations.length =
      (RAGEngine.query failingGenRag "How do refunds work?" Intent.POLICY
        UserRole.TRAVELER MAX_CHUNKS).chunk_count ∧
    ((RAGEngine.query failingGenRag "How do refunds work?" Intent.POLICY
      UserRole.TRAVELER MAX_CHUNKS).success = true →
      (RAGEngine.query failingGenRag "How do refunds work?" Intent.POLICY
        UserRole.TRAVELER MAX_CHUNKS).response = synthLLMErrorApology ∨
      (RAGEngine.query failingGenRag "How do refunds work?" Intent.POLICY
        UserRole.TRAVELER MAX_CHUNKS).response = synthNoTextApology) :=
  C9_gen_failure_apology_with_citations failingGenRag "How do refunds work?"
    Intent.POLICY UserRole.TRAVELER MAX_CHUNKS (fun _ => rfl)

-- ━━━━━━━━━━━━━━━━━━━━━━━━━━━━━━━━━━━━━━━━━━━━━━━━━━━━━━━━━━━
-- Claim C10 (non-empty response text)
-- ━━━━━━━━━━━━━━━━━━━━━━━━━━━━━━━━━━━━━━━━━━━━━━━━━━━━━━━━━━━

/-- C10 divergence: a full pipeline run can return an empty
`response_text`.  When the store raises an exception whose message is
empty on a saved-items query, `get_saved_items` builds an envelope with
`message = ""` and `_format_simple` returns that empty message (the
`get("message", "No data available")` default does not apply because the
key is present), so the response text of the router is `""`. -/
theorem C10_empty_response_text_reachable :
    (HybridAISystem.query savedItemsEmptyErrSysEnv "Show my saved items"
      "user123" UserRole.TRAVELER none false).response.response = "" := by decide

end SkyConnect

